import Mathlib

/-!
Shallow embedding of `loco_mujoco/environments/base.py` (class `BaseEnv`)
and proofs about its specification.

Conventions of the embedding:
* numpy scalars are modelled by `ℚ` (the file only adds, multiplies and
  divides by constants, so rationals are exact);
* numpy arrays of known rank are modelled by `List ℚ` / `List (List ℚ)`;
  a value of unknown rank is the inductive `ObsValue`;
* a Python function that can fail an `assert` or raise is modelled with
  `Option` / `Except`;
* mutation of the MuJoCo data structure is modelled by the list of write
  events the function performs, in order.
-/

namespace LocoMujoco

/-- The observation kinds of `mushroom_rl.utils.mujoco.ObservationType`,
as consumed by `BaseEnv.set_sim_state`. -/
inductive ObservationType
  | BODY_POS
  | BODY_ROT
  | BODY_VEL
  | JOINT_POS
  | JOINT_VEL
  | SITE_POS
  | SITE_ROT
  | SITE_VEL
  deriving DecidableEq, Repr

/-- One entry `(key, name, type)` of `observation_spec`. -/
structure ObsSpecEntry where
  key : String
  name : String
  ot : ObservationType
  deriving DecidableEq, Repr

/-- A numpy value of rank 0, 1 or 2, as appearing in a trajectory sample. -/
inductive ObsValue
  | scalar (v : ℚ)
  | vec (xs : List ℚ)
  | mat (m : List (List ℚ))
  deriving DecidableEq, Repr

/-- The rank `len(value.shape)` of an `ObsValue`. -/
def ObsValue.ndim : ObsValue → ℕ
  | .scalar _ => 0
  | .vec _ => 1
  | .mat _ => 2

/-- A write into the MuJoCo data performed by `set_sim_state`:
`data.joint(name).qpos`, `data.joint(name).qvel` or `data.site(name).xmat`. -/
inductive SimWrite
  | qpos (name : String) (v : ObsValue)
  | qvel (name : String) (v : ObsValue)
  | xmat (name : String) (v : ObsValue)
  deriving DecidableEq, Repr

/-- One iteration of the loop body of `BaseEnv.set_sim_state`: route the
value to the field selected by the observation type.  `none` models the
`assert len(value.shape) == 2` failure on a site rotation. -/
def writeEntry (e : ObsSpecEntry) (v : ObsValue) : Option (List SimWrite) :=
  match e.ot with
  | .JOINT_POS => some [.qpos e.name v]
  | .JOINT_VEL => some [.qvel e.name v]
  | .SITE_ROT => if v.ndim = 2 then some [.xmat e.name v] else none
  | _ => some []

/-- The loop of `BaseEnv.set_sim_state` over `zip(obs_spec, sample)`. -/
def writeLoop : List (ObsSpecEntry × ObsValue) → Option (List SimWrite)
  | [] => some []
  | (e, v) :: rest => do
      let w ← writeEntry e v
      let ws ← writeLoop rest
      pure (w ++ ws)

/-- Embedding of `BaseEnv.set_sim_state`: asserts `len(sample) == len(obs_spec)`, then
writes each sample value into the simulator field selected by its spec
entry.  `none` models an `AssertionError`. -/
def set_sim_state (obs_spec : List ObsSpecEntry) (sample : List ObsValue) :
    Option (List SimWrite) :=
  if sample.length = obs_spec.length then writeLoop (obs_spec.zip sample)
  else none

/-- The per-entry routing exactly as the specification states it: a
joint-position entry writes the joint-position field, a joint-velocity
entry the joint-velocity field, a site-rotation entry the site-rotation
field, and an entry of any other kind performs no write. -/
def claimedWrite (e : ObsSpecEntry) (v : ObsValue) : List SimWrite :=
  match e.ot with
  | .JOINT_POS => [.qpos e.name v]
  | .JOINT_VEL => [.qvel e.name v]
  | .SITE_ROT => [.xmat e.name v]
  | _ => []

/-- Embedding of `BaseEnv._init_sim_from_obs`: requires a 1-D observation, prepends two
zero placeholders for the x/y position, asserts the result is at least as
long as the observation spec, truncates it to the spec length and delegates
to `set_sim_state`. -/
def _init_sim_from_obs (obs_spec : List ObsSpecEntry) (obs : ObsValue) :
    Option (List SimWrite) :=
  match obs with
  | .vec xs =>
      let full : List ℚ := 0 :: 0 :: xs
      if obs_spec.length ≤ full.length then
        set_sim_state obs_spec ((full.take obs_spec.length).map ObsValue.scalar)
      else none
  | _ => none

/-- The function `_init_sim_from_obs` as the claim reads it: prepend two zeros, then
truncate OR PAD (with zeros) to exactly the observation-spec length, and
delegate the result to `set_sim_state`, with no length requirement. -/
def init_sim_from_obs_claimed (obs_spec : List ObsSpecEntry) (obs : ObsValue) :
    Option (List SimWrite) :=
  match obs with
  | .vec xs =>
      let full : List ℚ := 0 :: 0 :: xs
      let sample := full.take obs_spec.length ++
        List.replicate (obs_spec.length - full.length) 0
      set_sim_state obs_spec (sample.map ObsValue.scalar)
  | _ => none

/-! ### Trajectories, `load_trajectory` and `setup` -/

/-- The two attributes of the trajectory store read by `BaseEnv.setup`
(`trajectory_length` and `nnumber_of_trajectories`, names as in the
source).  Modelled from the spec: the `Trajectory` class itself
(`loco_mujoco.utils.Trajectory`) is not under `src/`; the spec describes it
as a possibly multi-trajectory dataset of full state samples. -/
structure Trajectory where
  trajectory_length : ℕ
  nnumber_of_trajectories : ℕ
  deriving DecidableEq, Repr

/-- The trajectory-construction parameters `**traj_params` of
`BaseEnv.load_trajectory`.  Modelled from the spec: only the parts of the
parameter bundle that reach the two attributes used by `setup` are kept. -/
structure TrajParams where
  trajectory_length : ℕ
  nnumber_of_trajectories : ℕ
  deriving DecidableEq, Repr

/-- Modelled from the spec: `load_trajectory` "constructs a fresh
trajectory store" from the parameter bundle (the `Trajectory` constructor
is not under `src/`). -/
def Trajectory.ofParams (p : TrajParams) : Trajectory :=
  ⟨p.trajectory_length, p.nnumber_of_trajectories⟩

/-- The state touched by `BaseEnv.load_trajectory`: the currently loaded
store (`self.trajectories`, `None` before any load) and the warnings
emitted so far. -/
structure TrajState where
  trajectories : Option Trajectory
  warnings : List String
  deriving DecidableEq, Repr

/-- Embedding of `BaseEnv.load_trajectory`: warn (non-fatally) when a store already
exists, then build a fresh store from the parameters and replace the old
one.  The function is total: it never raises. -/
def load_trajectory (st : TrajState) (p : TrajParams) : TrajState :=
  { trajectories := some (Trajectory.ofParams p),
    warnings :=
      if st.trajectories.isSome then
        st.warnings ++ ["New trajectories loaded, which overrides the old ones."]
      else st.warnings }

/-- The configuration of a `BaseEnv` as read by `setup`:
`self.trajectories`, `self._random_start`, `self._init_step_no`, and the
observation spec used by `_init_sim_from_obs`.  `init_step_no` is a
natural number (an init step is a nonnegative sample index). -/
structure EnvCfg where
  obs_spec : List ObsSpecEntry
  trajectories : Option Trajectory
  random_start : Bool
  init_step_no : Option ℕ
  deriving DecidableEq, Repr

/-- An error raised by `BaseEnv.setup`: one of the three `ValueError`s of
the reset-mode validation, or an `AssertionError` from the init-step bound
check or from `_init_sim_from_obs` / `set_sim_state`. -/
inductive SetupError
  | valueError (msg : String)
  | assertionError
  deriving DecidableEq, Repr

/-- The state-initialisation effect a successful `setup` performs. -/
inductive SetupEffect
  | initFromObs (writes : List SimWrite)
  | randomSample
  | trajSample (substep_no traj_no : ℕ)
  | defaultState
  deriving DecidableEq, Repr

/-- An event in the execution of `setup`, in program order. -/
inductive SetupEvent
  | rewardReset
  | raised (e : SetupError)
  | applied (eff : SetupEffect)
  deriving DecidableEq, Repr

deriving instance DecidableEq for Except

/-- The events following the reward reset, derived from the outcome. -/
def eventsOf : Except SetupError SetupEffect → List SetupEvent
  | .error e => [.raised e]
  | .ok eff => [.applied eff]

/-- Result of `BaseEnv.setup`: the outcome (error raised or effect
applied) and the full event trace, in program order. -/
structure SetupResult where
  outcome : Except SetupError SetupEffect
  trace : List SetupEvent
  deriving DecidableEq, Repr

/-- Embedding of `BaseEnv.setup`.  The reward strategy's `reset_state()` is called
first, unconditionally.  With an explicit observation, the state is
initialised from it via `_init_sim_from_obs`.  Otherwise the three
`ValueError` validations run in source order; then, with a store loaded,
either a random sample is drawn (`random_start`), or — when
`self._init_step_no` is truthy, i.e. set and nonzero — the init step is
bounds-checked and split into `(substep_no, traj_no)`; with no store or
neither flag, the simulator keeps its current/default state. -/
def setup (cfg : EnvCfg) (obs : Option ObsValue) : SetupResult :=
  let outcome : Except SetupError SetupEffect :=
    match obs with
    | some o =>
        match _init_sim_from_obs cfg.obs_spec o with
        | some ws => .ok (.initFromObs ws)
        | none => .error .assertionError
    | none =>
        if cfg.trajectories.isNone && cfg.random_start then
          .error (.valueError "Random start not possible without trajectory data.")
        else if cfg.trajectories.isNone && cfg.init_step_no.isSome then
          .error (.valueError "Setting an initial step is not possible without trajectory data.")
        else if cfg.init_step_no.isSome && cfg.random_start then
          .error (.valueError "Either use a random start or set an initial step, not both.")
        else
          match cfg.trajectories with
          | none => .ok .defaultState
          | some traj =>
              if cfg.random_start then .ok .randomSample
              else
                match cfg.init_step_no with
                | some k =>
                    if k ≠ 0 then
                      if k ≤ traj.trajectory_length * traj.nnumber_of_trajectories then
                        .ok (.trajSample (k % traj.trajectory_length)
                          (k / traj.trajectory_length))
                      else .error .assertionError
                    else .ok .defaultState
                | none => .ok .defaultState
  { outcome := outcome, trace := .rewardReset :: eventsOf outcome }

/-- Holds (as `true`) exactly on a `ValueError` outcome (the reset-mode validation
errors), as opposed to an assertion failure or success. -/
def isValueError : Except SetupError SetupEffect → Bool
  | .error (.valueError _) => true
  | _ => false

/-! ### Action normalisation (`__init__` lines 88–93, `_preprocess_action`) -/

/-- The constant `self.norm_act_mean = (high + low) / 2.0`, componentwise over the
native action-space bounds captured at construction. -/
def norm_act_mean (low high : List ℚ) : List ℚ :=
  List.zipWith (fun h l => (h + l) / 2) high low

/-- The constant `self.norm_act_delta = (high - low) / 2.0`, componentwise. -/
def norm_act_delta (low high : List ℚ) : List ℚ :=
  List.zipWith (fun h l => (h - l) / 2) high low

/-- Embedding of `BaseEnv._preprocess_action`:
`(action.copy() * self.norm_act_delta) + self.norm_act_mean`.
No range check is performed on the input. -/
def _preprocess_action (delta mean action : List ℚ) : List ℚ :=
  List.zipWith (· + ·) (List.zipWith (· * ·) action delta) mean

/-! ### Observation assembly (`_create_observation`, `_get_grf_size`) -/

/-- Embedding of `BaseEnv._get_grf_size`: the size of the ground-force vector. -/
def _get_grf_size : ℕ := 12

/-- Embedding of `BaseEnv._create_observation`: drop the first two (x/y) entries of the
raw sample and, when foot forces are used, append the windowed mean
ground-reaction force divided by 1000. -/
def _create_observation (use_foot_forces : Bool) (mean_grf obs : List ℚ) :
    List ℚ :=
  if use_foot_forces then obs.drop 2 ++ mean_grf.map (· / 1000)
  else obs.drop 2

/-! ### Reward dispatch (`_get_reward_function`, `get_obs_idx`) -/

/-- The reward strategy objects a `BaseEnv` can construct. -/
inductive RewardFunction
  | NoReward
  | CustomReward
  | TargetVelocityReward (x_vel_idx : ℤ)
  | PosReward (pos_idx : ℤ)
  deriving DecidableEq, Repr

/-- An error raised while constructing the reward function: a `KeyError`
from `obs_idx_map[key]`, the `assert len(idx) == 1` failure, or the
`NotImplementedError` for an unknown reward type. -/
inductive RewardDispatchError
  | keyError (key : String)
  | assertionError
  | notImplementedError (reward_type : String)
  deriving DecidableEq, Repr

/-- Embedding of `BaseEnv.get_obs_idx`: look the key up in
`self.obs_helper.obs_idx_map` (a `KeyError` when absent) and shift every
index by -2 to account for the deleted x and y entries. -/
def get_obs_idx (obs_idx_map : List (String × List ℤ)) (key : String) :
    Except RewardDispatchError (List ℤ) :=
  match obs_idx_map.lookup key with
  | some idx => .ok (idx.map (· - 2))
  | none => .error (.keyError key)

/-- Embedding of `BaseEnv._get_reward_function`: dispatch on the reward-type name.
`"custom"`, `"target_velocity"`, `"x_pos"` and `None` are the implemented
cases; any other name raises `NotImplementedError`.  The two tracking
rewards require the unique observation index of their pelvis key. -/
def _get_reward_function (obs_idx_map : List (String × List ℤ))
    (reward_type : Option String) :
    Except RewardDispatchError RewardFunction :=
  match reward_type with
  | none => .ok .NoReward
  | some s =>
      if s = "custom" then .ok .CustomReward
      else if s = "target_velocity" then
        match get_obs_idx obs_idx_map "dq_pelvis_tx" with
        | .error e => .error e
        | .ok idx =>
            match idx with
            | [i] => .ok (.TargetVelocityReward i)
            | _ => .error .assertionError
      else if s = "x_pos" then
        match get_obs_idx obs_idx_map "q_pelvis_tx" with
        | .error e => .error e
        | .ok idx =>
            match idx with
            | [i] => .ok (.PosReward i)
            | _ => .error .assertionError
      else .error (.notImplementedError s)

/-! ### `_get_from_obs` -/

/-- The `keys` argument of `BaseEnv._get_from_obs`: either a list of keys
or a single string. -/
inductive ObsKeys
  | list (ks : List String)
  | str (s : String)
  deriving DecidableEq, Repr

/-- The key list `_get_from_obs` actually iterates over: a list argument
is used as is; a string argument goes through Python's `list(keys)`,
which splits it into its characters. -/
def keysToList : ObsKeys → List String
  | .list ks => ks
  | .str s => s.toList.map (fun c => String.mk [c])

/-- Embedding of `BaseEnv._get_from_obs`: prepend the two dummy x/y entries to the
observation, normalise the `keys` argument to a list, and concatenate the
entries `obs_helper.get_from_obs(obs, key)` for each key.  The helper
lookup (not under `src/`) is abstracted as the function argument
`get_from_obs`. -/
def _get_from_obs (get_from_obs : List ℚ → String → List ℚ)
    (obs : List ℚ) (keys : ObsKeys) : List ℚ :=
  let obs2 : List ℚ := 0 :: 0 :: obs
  ((keysToList keys).map (get_from_obs obs2)).flatten

/-! ## Theorems -/

/-- Helper: `getD` of a `zipWith`, at an index in range of both lists. -/
theorem getD_zipWith (f : ℚ → ℚ → ℚ) (l₁ l₂ : List ℚ) (i : ℕ)
    (h₁ : i < l₁.length) (h₂ : i < l₂.length) :
    (List.zipWith f l₁ l₂).getD i 0 = f (l₁.getD i 0) (l₂.getD i 0) := by
  induction l₁ generalizing l₂ i with
  | nil => simp at h₁
  | cons a t ih =>
      cases l₂ with
      | nil => simp at h₂
      | cons b t₂ =>
          cases i with
          | zero => simp
          | succ n =>
              simpa using ih t₂ n (by simpa using h₁) (by simpa using h₂)

/-- **C7**: the vector returned by `_create_observation` has length
`len(observation_spec) - 2` when foot forces are disabled and
`len(observation_spec) - 2 + 12` when they are enabled, the mean
ground-reaction-force window having the size `_get_grf_size = 12`. -/
theorem C7_create_observation_length (use_foot_forces : Bool)
    (mean_grf obs : List ℚ) (spec_len : ℕ)
    (hg : mean_grf.length = _get_grf_size)
    (ho : obs.length = spec_len) (h2 : 2 ≤ spec_len) :
    (_create_observation use_foot_forces mean_grf obs).length
      = spec_len - 2 + (if use_foot_forces then 12 else 0) := by
  cases use_foot_forces <;>
    simp [_create_observation, _get_grf_size] at * <;> omega

/-- Witness for C7 at a concrete 4-entry layout with foot forces on. -/
theorem C7_create_observation_length_witness :
    (_create_observation true [1, 2, 3, 4, 5, 6, 7, 8, 9, 10, 11, 12]
        [5, 6, 7, 8]).length = 4 - 2 + (if true then 12 else 0) :=
  C7_create_observation_length true [1, 2, 3, 4, 5, 6, 7, 8, 9, 10, 11, 12]
    [5, 6, 7, 8] 4 rfl rfl (by decide)

/-- **C8**: `load_trajectory` always installs the freshly constructed
store (so a second call wins over the first), warns — without raising —
exactly when a store already existed, and leaves the warnings unchanged
when none existed. -/
theorem C8_load_trajectory_replaces (st : TrajState) (p q : TrajParams) :
    ((load_trajectory st p).trajectories = some (Trajectory.ofParams p)) ∧
    ((load_trajectory (load_trajectory st p) q).trajectories
        = some (Trajectory.ofParams q)) ∧
    (st.trajectories.isSome = true →
      (load_trajectory st p).warnings = st.warnings
        ++ ["New trajectories loaded, which overrides the old ones."]) ∧
    (st.trajectories.isNone = true →
      (load_trajectory st p).warnings = st.warnings) ∧
    ((load_trajectory (load_trajectory st p) q).warnings
        = (load_trajectory st p).warnings
          ++ ["New trajectories loaded, which overrides the old ones."]) := by
  refine ⟨rfl, rfl, ?_, ?_, ?_⟩
  · intro h
    simp [load_trajectory, h]
  · intro h
    have h' : st.trajectories.isSome = false := by
      cases hst : st.trajectories <;> simp_all
    simp [load_trajectory, h']
  · simp [load_trajectory]

/-- Witness for C8: first load on a fresh environment emits no warning
and installs the store. -/
theorem C8_load_trajectory_replaces_witness :
    (load_trajectory ⟨none, []⟩ ⟨5, 3⟩).trajectories
        = some (Trajectory.ofParams ⟨5, 3⟩) ∧
    (load_trajectory ⟨none, []⟩ ⟨5, 3⟩).warnings
        = (⟨none, []⟩ : TrajState).warnings :=
  ⟨(C8_load_trajectory_replaces ⟨none, []⟩ ⟨5, 3⟩ ⟨1, 1⟩).1,
   (C8_load_trajectory_replaces ⟨none, []⟩ ⟨5, 3⟩ ⟨1, 1⟩).2.2.2.1 rfl⟩

/-- **C10**: when `_get_from_obs` receives a single string key, Python's
`list(keys)` splits it into its characters, so every lookup it performs is
for a single-character key, the original multi-character key itself is
never looked up, and the result is the concatenation of the per-character
lookups. -/
theorem C10_get_from_obs_string_key (get_from_obs : List ℚ → String → List ℚ)
    (obs : List ℚ) (s : String) (h : 1 < s.length) :
    keysToList (.str s) = s.toList.map (fun c => String.mk [c]) ∧
    (∀ k ∈ keysToList (.str s), k.length = 1) ∧
    s ∉ keysToList (.str s) ∧
    _get_from_obs get_from_obs obs (.str s)
      = ((s.toList.map fun c => String.mk [c]).map
          (get_from_obs (0 :: 0 :: obs))).flatten := by
  have hall : ∀ k ∈ keysToList (.str s), k.length = 1 := by
    intro k hk
    simp only [keysToList, List.mem_map] at hk
    obtain ⟨c, _, rfl⟩ := hk
    rfl
  refine ⟨rfl, hall, ?_, rfl⟩
  intro hs
  have h1 := hall s hs
  omega

/-- Witness for C10: the two-character key is not among the keys actually
looked up. -/
theorem C10_get_from_obs_string_key_witness :
    "ab" ∉ keysToList (.str "ab") :=
  (C10_get_from_obs_string_key (fun _ _ => []) [] "ab" (by decide)).2.2.1

/-- **C3**: componentwise, `_preprocess_action` returns
`action * norm_act_delta + norm_act_mean` with no range check on the
input; whenever the component lies in `[-1, 1]` the result lies in the
native bounds `[low, high]` captured at construction, `-1` mapping exactly
to `low` and `+1` exactly to `high`. -/
theorem C3_preprocess_action (low high action : List ℚ) (i : ℕ)
    (hlenH : high.length = low.length)
    (hlenA : action.length = low.length)
    (hi : i < low.length)
    (hb : low.getD i 0 ≤ high.getD i 0) :
    (_preprocess_action (norm_act_delta low high) (norm_act_mean low high)
        action).length = action.length ∧
    (_preprocess_action (norm_act_delta low high) (norm_act_mean low high)
        action).getD i 0
      = action.getD i 0 * (norm_act_delta low high).getD i 0
        + (norm_act_mean low high).getD i 0 ∧
    (-1 ≤ action.getD i 0 → action.getD i 0 ≤ 1 →
      low.getD i 0 ≤ (_preprocess_action (norm_act_delta low high)
          (norm_act_mean low high) action).getD i 0 ∧
      (_preprocess_action (norm_act_delta low high)
          (norm_act_mean low high) action).getD i 0 ≤ high.getD i 0) ∧
    (action.getD i 0 = -1 →
      (_preprocess_action (norm_act_delta low high)
          (norm_act_mean low high) action).getD i 0 = low.getD i 0) ∧
    (action.getD i 0 = 1 →
      (_preprocess_action (norm_act_delta low high)
          (norm_act_mean low high) action).getD i 0 = high.getD i 0) := by
  have hiH : i < high.length := by omega
  have hiA : i < action.length := by omega
  have hdl : (norm_act_delta low high).length = low.length := by
    simp [norm_act_delta]
    omega
  have hml : (norm_act_mean low high).length = low.length := by
    simp [norm_act_mean]
    omega
  have hdelta : (norm_act_delta low high).getD i 0
      = (high.getD i 0 - low.getD i 0) / 2 :=
    getD_zipWith _ high low i hiH hi
  have hmean : (norm_act_mean low high).getD i 0
      = (high.getD i 0 + low.getD i 0) / 2 :=
    getD_zipWith _ high low i hiH hi
  have hmul : (List.zipWith (· * ·) action (norm_act_delta low high)).getD i 0
      = action.getD i 0 * (norm_act_delta low high).getD i 0 :=
    getD_zipWith _ action (norm_act_delta low high) i hiA (by omega)
  have hmullen :
      (List.zipWith (· * ·) action (norm_act_delta low high)).length
        = action.length := by
    simp
    omega
  have hres : (_preprocess_action (norm_act_delta low high)
      (norm_act_mean low high) action).getD i 0
      = action.getD i 0 * (norm_act_delta low high).getD i 0
        + (norm_act_mean low high).getD i 0 := by
    unfold _preprocess_action
    rw [getD_zipWith _ _ _ i (by omega) (by omega), hmul]
  have hform : (_preprocess_action (norm_act_delta low high)
      (norm_act_mean low high) action).getD i 0
      = action.getD i 0 * ((high.getD i 0 - low.getD i 0) / 2)
        + (high.getD i 0 + low.getD i 0) / 2 := by
    rw [hres, hdelta, hmean]
  refine ⟨?_, hres, ?_, ?_, ?_⟩
  · unfold _preprocess_action
    simp
    omega
  · intro hlo hhi
    rw [hform]
    constructor <;> nlinarith [hb, hlo, hhi]
  · intro hneg
    rw [hform, hneg]
    ring
  · intro hpos
    rw [hform, hpos]
    ring

/-- Witness for C3 at `low = [-2]`, `high = [4]`, `action = [1]`: the
upper endpoint is hit exactly. -/
theorem C3_preprocess_action_witness :
    (_preprocess_action (norm_act_delta [-2] [4]) (norm_act_mean [-2] [4])
        [1]).getD 0 0 = (4 : ℚ) :=
  (C3_preprocess_action [-2] [4] [1] 0 rfl rfl (by decide)
    (by norm_num)).2.2.2.2 rfl

/-- Helper: when every site-rotation value in the zipped list is a 2-D
matrix, the `set_sim_state` loop succeeds and produces exactly the writes
stated by the spec's routing. -/
theorem writeLoop_eq_claimed (l : List (ObsSpecEntry × ObsValue))
    (h : ∀ p ∈ l, p.1.ot = ObservationType.SITE_ROT → p.2.ndim = 2) :
    writeLoop l = some (l.flatMap fun p => claimedWrite p.1 p.2) := by
  induction l with
  | nil => rfl
  | cons hd tl ih =>
      obtain ⟨⟨ek, en, eot⟩, v⟩ := hd
      have hhd := h (⟨ek, en, eot⟩, v) (List.mem_cons_self _ _)
      have htl : ∀ p ∈ tl, p.1.ot = ObservationType.SITE_ROT → p.2.ndim = 2 :=
        fun p hp => h p (List.mem_cons_of_mem _ hp)
      have hE : writeEntry ⟨ek, en, eot⟩ v
          = some (claimedWrite ⟨ek, en, eot⟩ v) := by
        cases eot <;> simp [writeEntry, claimedWrite] at hhd ⊢ <;>
          exact hhd
      simp [writeLoop, hE, ih htl]

/-- Helper: a site-rotation entry whose value is not a 2-D matrix makes
the `set_sim_state` loop fail its assertion, wherever it occurs. -/
theorem writeLoop_rot_fail (l : List (ObsSpecEntry × ObsValue))
    (h : ∃ p ∈ l, p.1.ot = ObservationType.SITE_ROT ∧ p.2.ndim ≠ 2) :
    writeLoop l = none := by
  induction l with
  | nil => simp at h
  | cons hd tl ih =>
      obtain ⟨p, hp, hrot, hnd⟩ := h
      rcases List.mem_cons.mp hp with rfl | hmem
      · obtain ⟨⟨ek, en, eot⟩, v⟩ := p
        simp at hrot
        subst hrot
        simp [writeLoop, writeEntry, hnd]
      · have htl := ih ⟨p, hmem, hrot, hnd⟩
        cases hE : writeEntry hd.1 hd.2 <;>
          simp [writeLoop, hE, htl]

/-- **C5**: `set_sim_state` requires the sample length to equal the
observation-spec length (assertion failure otherwise); with matching
lengths it pairs spec entries and sample values positionally and writes
joint positions, joint velocities and site rotations to their simulator
fields, skipping entries of every other kind with no write, and it fails
its assertion when a site-rotation value is not a 2-D matrix. -/
theorem C5_set_sim_state (spec : List ObsSpecEntry) (sample : List ObsValue) :
    (sample.length ≠ spec.length → set_sim_state spec sample = none) ∧
    (sample.length = spec.length →
      (∀ p ∈ spec.zip sample, p.1.ot = ObservationType.SITE_ROT →
        p.2.ndim = 2) →
      set_sim_state spec sample
        = some ((spec.zip sample).flatMap fun p => claimedWrite p.1 p.2)) ∧
    (sample.length = spec.length →
      (∃ p ∈ spec.zip sample, p.1.ot = ObservationType.SITE_ROT ∧
        p.2.ndim ≠ 2) →
      set_sim_state spec sample = none) := by
  refine ⟨?_, ?_, ?_⟩
  · intro h
    simp [set_sim_state, h]
  · intro h hrot
    simp [set_sim_state, h]
    exact writeLoop_eq_claimed _ hrot
  · intro h hbad
    simp [set_sim_state, h]
    exact writeLoop_rot_fail _ hbad

/-- Witness for C5 on a concrete three-entry spec mixing a joint
position, a site rotation and a (skipped) body position. -/
theorem C5_set_sim_state_witness :
    set_sim_state
        [⟨"q_a", "a", ObservationType.JOINT_POS⟩,
         ⟨"r_b", "b", ObservationType.SITE_ROT⟩,
         ⟨"p_c", "c", ObservationType.BODY_POS⟩]
        [.scalar 1, .mat [[1, 0], [0, 1]], .scalar 2]
      = some [.qpos "a" (.scalar 1), .xmat "b" (.mat [[1, 0], [0, 1]])] :=
  (C5_set_sim_state
      [⟨"q_a", "a", ObservationType.JOINT_POS⟩,
       ⟨"r_b", "b", ObservationType.SITE_ROT⟩,
       ⟨"p_c", "c", ObservationType.BODY_POS⟩]
      [.scalar 1, .mat [[1, 0], [0, 1]], .scalar 2]).2.1 rfl (by decide)

/-- **C4** (amended): `_init_sim_from_obs` requires a 1-D observation,
prepends two zero placeholders, and — when the result is at least as long
as the observation spec — truncates it to exactly the spec length and
delegates it to `set_sim_state`; when the result is shorter than the spec
it fails an assertion instead of padding, and non-1-D input is rejected. -/
theorem C4_init_sim_from_obs (spec : List ObsSpecEntry) (xs : List ℚ)
    (v : ObsValue) :
    (spec.length ≤ xs.length + 2 →
      _init_sim_from_obs spec (.vec xs)
        = set_sim_state spec
            ((((0 : ℚ) :: 0 :: xs).take spec.length).map ObsValue.scalar)) ∧
    (xs.length + 2 < spec.length →
      _init_sim_from_obs spec (.vec xs) = none) ∧
    (v.ndim ≠ 1 → _init_sim_from_obs spec v = none) := by
  refine ⟨?_, ?_, ?_⟩
  · intro h
    simp only [_init_sim_from_obs]
    rw [if_pos (by simpa using h)]
  · intro h
    simp only [_init_sim_from_obs]
    rw [if_neg (by simp; omega)]
  · intro h
    cases v with
    | scalar w => rfl
    | vec w => simp [ObsValue.ndim] at h
    | mat w => rfl

/-- Counterexample for C4 as stated: on a 4-entry spec and a 1-D
observation of length 1 the code fails its length assertion (`none`),
while the claimed truncate-or-pad behaviour would delegate a padded
sample to `set_sim_state`. -/
theorem C4_init_sim_from_obs_counterexample :
    _init_sim_from_obs
        [⟨"q_w", "w", ObservationType.JOINT_POS⟩,
         ⟨"q_x", "x", ObservationType.JOINT_POS⟩,
         ⟨"q_y", "y", ObservationType.JOINT_POS⟩,
         ⟨"q_z", "z", ObservationType.JOINT_POS⟩] (.vec [5]) = none ∧
    init_sim_from_obs_claimed
        [⟨"q_w", "w", ObservationType.JOINT_POS⟩,
         ⟨"q_x", "x", ObservationType.JOINT_POS⟩,
         ⟨"q_y", "y", ObservationType.JOINT_POS⟩,
         ⟨"q_z", "z", ObservationType.JOINT_POS⟩] (.vec [5]) ≠ none := by
  constructor <;> decide

/-- Witness for C4 on an observation long enough for the truncation
branch. -/
theorem C4_init_sim_from_obs_witness :
    _init_sim_from_obs [⟨"q_x", "x", ObservationType.JOINT_POS⟩] (.vec [7])
      = set_sim_state [⟨"q_x", "x", ObservationType.JOINT_POS⟩]
          ((((0 : ℚ) :: 0 :: [7]).take
            [ObsSpecEntry.mk "q_x" "x" ObservationType.JOINT_POS].length).map
            ObsValue.scalar) :=
  (C4_init_sim_from_obs [⟨"q_x", "x", ObservationType.JOINT_POS⟩] [7]
    (.vec [7])).1 (by decide)

/-- The configuration C1 is about: trajectories loaded (with the given
length and count), `random_start = False`, and a fixed init step `k`. -/
def initStepCfg (spec : List ObsSpecEntry) (L N k : ℕ) : EnvCfg :=
  { obs_spec := spec, trajectories := some ⟨L, N⟩, random_start := false,
    init_step_no := some k }

/-- **C1** (amended): with trajectories loaded, `random_start = False` and
a fixed init step `k` set, `setup(obs=None)` splits a *nonzero* `k` into
`(traj_index, offset) = (k / trajectory_length, k % trajectory_length)`
and resets the store to that sample after checking
`k <= trajectory_length * number_of_trajectories` (an assertion failure
when exceeded, no failure at exact equality); for `k = 0` the init-step
branch is skipped — `0` is falsy — and the simulator keeps its default
state. -/
theorem C1_setup_init_step (spec : List ObsSpecEntry) (L N k : ℕ) :
    (k ≠ 0 → k ≤ L * N →
      (setup (initStepCfg spec L N k) none).outcome
        = .ok (.trajSample (k % L) (k / L))) ∧
    (k ≠ 0 → L * N < k →
      (setup (initStepCfg spec L N k) none).outcome
        = .error .assertionError) ∧
    (k = 0 →
      (setup (initStepCfg spec L N k) none).outcome
        = .ok .defaultState) := by
  refine ⟨?_, ?_, ?_⟩
  · intro h1 h2
    simp [setup, initStepCfg, h1, h2]
  · intro h1 h2
    simp [setup, initStepCfg, h1, Nat.not_le.mpr h2]
  · intro h1
    simp [setup, initStepCfg, h1]

/-- Counterexample for C1 as stated: at `k = 0` — a set init step — the
code performs no trajectory reset at all (the branch tests the *truthiness*
of `init_step_no`, not `is not None`), leaving the default state instead
of sample `(0, 0)`. -/
theorem C1_setup_init_step_counterexample :
    (setup (initStepCfg [] 10 2 0) none).outcome = .ok .defaultState ∧
    (setup (initStepCfg [] 10 2 0) none).outcome
      ≠ .ok (.trajSample (0 % 10) (0 / 10)) := by
  constructor <;> decide

/-- Witness for C1 at the inclusive boundary `k = trajectory_length *
number_of_trajectories = 20`: no assertion failure, the sample is
`(substep 0, trajectory 2)`. -/
theorem C1_setup_init_step_witness :
    (setup (initStepCfg [] 10 2 20) none).outcome
      = .ok (.trajSample (20 % 10) (20 / 10)) :=
  (C1_setup_init_step [] 10 2 20).1 (by decide) (by decide)

/-- **C2**: `setup(obs=None)` raises a `ValueError` exactly when
(1) `random_start` is set with no trajectories, (2) an init step is set
with no trajectories, or (3) both flags are set — checked in this order,
each with its own message; with trajectories loaded and at most one flag
set no `ValueError` is raised, and with neither flag set the outcome is
the simulator's current/default state. -/
theorem C2_setup_validation (cfg : EnvCfg) :
    (isValueError (setup cfg none).outcome = true ↔
      ((cfg.trajectories.isNone = true ∧ cfg.random_start = true) ∨
       (cfg.trajectories.isNone = true ∧ cfg.init_step_no.isSome = true) ∨
       (cfg.random_start = true ∧ cfg.init_step_no.isSome = true))) ∧
    (cfg.trajectories.isNone = true → cfg.random_start = true →
      (setup cfg none).outcome = .error (.valueError
        "Random start not possible without trajectory data.")) ∧
    (cfg.trajectories.isNone = true → cfg.random_start = false →
      cfg.init_step_no.isSome = true →
      (setup cfg none).outcome = .error (.valueError
        "Setting an initial step is not possible without trajectory data.")) ∧
    (cfg.trajectories.isSome = true → cfg.random_start = true →
      cfg.init_step_no.isSome = true →
      (setup cfg none).outcome = .error (.valueError
        "Either use a random start or set an initial step, not both.")) ∧
    (cfg.random_start = false → cfg.init_step_no = none →
      (setup cfg none).outcome = .ok .defaultState) := by
  obtain ⟨spec, tr, rs, k⟩ := cfg
  cases tr <;> cases rs <;> cases k <;>
    simp [setup, isValueError]
  all_goals
    rename_i t n
    rcases eq_or_ne n 0 with rfl | hn
    · simp [isValueError]
    · by_cases hb : n ≤ t.trajectory_length * t.nnumber_of_trajectories <;>
        simp [isValueError, hn, hb]

/-- Witness for C2: with a loaded store and both flags set, the
third validation message fires. -/
theorem C2_setup_validation_witness :
    (setup ⟨[], some ⟨10, 2⟩, true, some 1⟩ none).outcome
      = .error (.valueError
        "Either use a random start or set an initial step, not both.") :=
  (C2_setup_validation ⟨[], some ⟨10, 2⟩, true, some 1⟩).2.2.2.1 rfl rfl rfl

/-- **C6**: every call to `setup` resets the reward strategy's state
exactly once, as its very first action — in particular before the
reset-mode validation, so the reset also happens on calls that go on to
raise a configuration error. -/
theorem C6_setup_resets_reward (cfg : EnvCfg) (obs : Option ObsValue) :
    (setup cfg obs).trace.head? = some SetupEvent.rewardReset ∧
    (∀ ev ∈ (setup cfg obs).trace.tail, ev ≠ SetupEvent.rewardReset) := by
  refine ⟨rfl, ?_⟩
  show ∀ ev ∈ eventsOf (setup cfg obs).outcome, ev ≠ SetupEvent.rewardReset
  intro ev hev
  cases h : (setup cfg obs).outcome <;> rw [h] at hev <;>
    simp [eventsOf] at hev <;> simp [hev]

/-- **C9**: reward dispatch at construction — a reward-type name other
than `"custom"`, `"target_velocity"`, `"x_pos"` or `None` raises
`NotImplementedError`; `None` yields the no-op reward; the two tracking
rewards need the observation index of their pelvis key, raising a
`KeyError` when the key is absent, an assertion failure when its index
list is not a singleton, and otherwise binding the unique (x/y-shifted)
index. -/
theorem C9_reward_dispatch (m : List (String × List ℤ)) (s : String)
    (i : ℤ) (l : List ℤ) :
    (_get_reward_function m none = .ok .NoReward) ∧
    (_get_reward_function m (some "custom") = .ok .CustomReward) ∧
    (s ≠ "custom" → s ≠ "target_velocity" → s ≠ "x_pos" →
      _get_reward_function m (some s) = .error (.notImplementedError s)) ∧
    (m.lookup "dq_pelvis_tx" = none →
      _get_reward_function m (some "target_velocity")
        = .error (.keyError "dq_pelvis_tx")) ∧
    (m.lookup "dq_pelvis_tx" = some l → l.length ≠ 1 →
      _get_reward_function m (some "target_velocity")
        = .error .assertionError) ∧
    (m.lookup "dq_pelvis_tx" = some [i] →
      _get_reward_function m (some "target_velocity")
        = .ok (.TargetVelocityReward (i - 2))) ∧
    (m.lookup "q_pelvis_tx" = none →
      _get_reward_function m (some "x_pos")
        = .error (.keyError "q_pelvis_tx")) ∧
    (m.lookup "q_pelvis_tx" = some l → l.length ≠ 1 →
      _get_reward_function m (some "x_pos") = .error .assertionError) ∧
    (m.lookup "q_pelvis_tx" = some [i] →
      _get_reward_function m (some "x_pos") = .ok (.PosReward (i - 2))) := by
  refine ⟨rfl, rfl, ?_, ?_, ?_, ?_, ?_, ?_, ?_⟩
  · intro h1 h2 h3
    simp [_get_reward_function, h1, h2, h3]
  · intro h
    simp [_get_reward_function, get_obs_idx, h]
  · intro h hl
    rcases l with _ | ⟨a, _ | ⟨b, t⟩⟩ <;>
      simp [_get_reward_function, get_obs_idx, h] <;> simp at hl
  · intro h
    simp [_get_reward_function, get_obs_idx, h]
  · intro h
    simp [_get_reward_function, get_obs_idx, h]
  · intro h hl
    rcases l with _ | ⟨a, _ | ⟨b, t⟩⟩ <;>
      simp [_get_reward_function, get_obs_idx, h] <;> simp at hl
  · intro h
    simp [_get_reward_function, get_obs_idx, h]

/-- Witness for C9 on a concrete index map: the unknown name fails and
`"target_velocity"` binds the unique shifted pelvis-velocity index. -/
theorem C9_reward_dispatch_witness :
    _get_reward_function [("dq_pelvis_tx", [5])] (some "tracking")
        = .error (.notImplementedError "tracking") ∧
    _get_reward_function [("dq_pelvis_tx", [5])] (some "target_velocity")
        = .ok (.TargetVelocityReward (5 - 2)) :=
  ⟨(C9_reward_dispatch [("dq_pelvis_tx", [5])] "tracking" 5 [5]).2.2.1
      (by decide) (by decide) (by decide),
   (C9_reward_dispatch [("dq_pelvis_tx", [5])] "tracking" 5 [5]).2.2.2.2.2.1
      rfl⟩

end LocoMujoco
